import Mathlib

/-!
Verification of the multi-terminal session orchestration layer of the
9000-code desktop application: the local PTY registry and lifecycle
handlers (`src/main/index.ts`), the renderer terminal bootstrap
(`XTerminal`), the split-layout panel model, the remote-access gateway
(`src/main/webTerminal.ts`), the edition limits (`src/shared/license.ts`)
and the access-token module (`webAuth`).

Each definition is a shallow embedding of the corresponding source
function: maps become functions into `Option`, PTY spawning becomes an
explicit `SpawnResult` argument (the outcome of the one `pty.spawn` call
a handler makes), and event emission becomes an explicit list of events
returned by the operation.
-/

namespace NineK

/-! ## Main-process terminal manager (`src/main/index.ts`) -/

/-- Mirrors `interface TerminalEntry { pty; pid }`: the stored PTY handle is
identified by an abstract handle number, alongside the recorded `pid`. -/
structure TerminalEntry where
  handle : Nat
  pid : Nat
  deriving Repr, DecidableEq

/-- Outcome of one call to the `pty.spawn` primitive: either a live process
handle with its pid, or a thrown error (stringified by the handlers). -/
inductive SpawnResult where
  | ok (handle : Nat) (pid : Nat)
  | err (msg : String)
  deriving Repr, DecidableEq

/-- The module-level mutable state of `src/main/index.ts`:
`const terminals: Map<string, TerminalEntry>` and
`const pendingTerminals: Set<string>`. -/
structure MainState where
  terminals : String → Option TerminalEntry
  pendingTerminals : String → Bool

def emptyMainState : MainState := ⟨fun _ => none, fun _ => false⟩

/-- Events pushed to the renderer over `safeSend` (`terminal:data`,
`terminal:exit`). -/
inductive MainEvent where
  | data (id : String) (d : String)
  | exit (id : String) (exitCode : Int)
  deriving Repr, DecidableEq

/-- The `{ success, error? }` result shape every terminal IPC handler returns. -/
inductive IpcResult where
  | ok
  | fail (error : String)
  deriving Repr, DecidableEq

/-- Result of one lifecycle IPC handler invocation: the returned result, the
updated module state, and how many times `pty.spawn` was called. -/
structure OpOutcome where
  result : IpcResult
  state : MainState
  spawnCalls : Nat

/-- Shallow embedding of the `terminal:create` IPC handler
(`src/main/index.ts` lines 112-165). `ptyAvailable` models whether the
`node-pty` module loaded; `sr` is the outcome of the single `pty.spawn`
call the handler makes. The handler spawns unconditionally and stores
`{ pty: term, pid }` under `id`, replacing any existing entry. -/
def terminalCreate (ptyAvailable : Bool) (st : MainState) (id : String)
    (sr : SpawnResult) : OpOutcome :=
  if !ptyAvailable then ⟨.fail "node-pty not available", st, 0⟩
  else
    match sr with
    | .ok handle pid =>
        ⟨.ok,
         { st with terminals := fun k => if k = id then some ⟨handle, pid⟩ else st.terminals k },
         1⟩
    | .err e => ⟨.fail e, st, 1⟩

/-- Shallow embedding of the `onExit` callback installed by both
`terminal:create` (lines 148-158) and `terminal:runClaude` (lines 272-282):
the process `pid` registered under logical id `id` exited with `exitCode`.
The entry is deleted and `terminal:exit` emitted only when the stored pid
still equals the exiting pid; otherwise the event is ignored. -/
def handleExit (st : MainState) (id : String) (pid : Nat) (exitCode : Int) :
    MainState × List MainEvent :=
  match st.terminals id with
  | some entry =>
      if entry.pid = pid then
        ({ st with terminals := fun k => if k = id then none else st.terminals k },
         [.exit id exitCode])
      else (st, [])
  | none => (st, [])

/-- Shallow embedding of the `terminal:runClaude` IPC handler
(`src/main/index.ts` lines 202-306). If `id` already has an entry or is
pending, the handler returns success without spawning. Otherwise it marks
`id` pending, spawns a plain shell (never writing any agent command into
the PTY), and on success stores the entry and clears the pending mark; on a
spawn error it clears the pending mark and returns the failure. Because the
pending mark is added and removed within the same synchronous section, the
pending set is unchanged in the final state. -/
def terminalRunClaude (ptyAvailable : Bool) (st : MainState) (id : String)
    (sr : SpawnResult) : OpOutcome :=
  if !ptyAvailable then ⟨.fail "node-pty not available", st, 0⟩
  else if (st.terminals id).isSome || st.pendingTerminals id then ⟨.ok, st, 0⟩
  else
    match sr with
    | .ok handle pid =>
        ⟨.ok,
         { st with terminals := fun k => if k = id then some ⟨handle, pid⟩ else st.terminals k },
         1⟩
    | .err e => ⟨.fail e, st, 1⟩

/-- Result of the renderer-side terminal bootstrap: final main-process state,
the diagnostic lines the renderer wrote into the xterm widget, and the
total number of `pty.spawn` calls across the flow. -/
structure InitOutcome where
  state : MainState
  banner : List String
  spawnCalls : Nat

/-- Shallow embedding of the renderer's `initTerminal` flow
(`XTerminal`, `src/unnamed/part_005` lines 222-254): call
`terminal:runClaude`; if it reports failure, write a diagnostic banner
containing the failure reason into the terminal widget and fall back to
`terminal:create`; if the fallback also fails, append a second diagnostic
line. `srClaude` and `srShell` are the spawn outcomes of the two handlers. -/
def initTerminal (ptyAvailable : Bool) (st : MainState) (id : String)
    (srClaude srShell : SpawnResult) : InitOutcome :=
  let o1 := terminalRunClaude ptyAvailable st id srClaude
  match o1.result with
  | .ok => ⟨o1.state, [], o1.spawnCalls⟩
  | .fail e =>
      let banner := ["Failed to start Claude: " ++ e,
                     "Make sure Claude Code CLI is installed and in your PATH.",
                     "",
                     "To install Claude Code: npm install -g @anthropic/claude-code",
                     ""]
      let o2 := terminalCreate ptyAvailable o1.state id srShell
      match o2.result with
      | .ok => ⟨o2.state, banner, o1.spawnCalls + o2.spawnCalls⟩
      | .fail e2 =>
          ⟨o2.state, banner ++ ["Failed to start shell: " ++ e2],
           o1.spawnCalls + o2.spawnCalls⟩

/-! ## Split-layout panel model (`src/unnamed/part_002`) -/

/-- Mirrors `SplitPanelState { id, terminalId, ratio }`. Ratios are JS
numbers used here only for storage and summation, embedded as rationals. -/
structure SplitPanelState where
  id : String
  terminalId : Option String
  ratio : ℚ
  deriving Repr, DecidableEq

/-- Mirrors `SplitLayoutType { id, name, panels, direction, defaultRatios }`
(the ASCII-art `icon` field is omitted as pure presentation data). -/
structure SplitLayoutType where
  id : String
  name : String
  panels : Nat
  direction : String
  defaultRatios : List ℚ
  deriving Repr, DecidableEq

/-- The predefined `SPLIT_LAYOUTS` array. -/
def SPLIT_LAYOUTS : List SplitLayoutType :=
  [⟨"single", "단일", 1, "horizontal", [100]⟩,
   ⟨"horizontal-2", "좌우 2분할", 2, "horizontal", [50, 50]⟩,
   ⟨"vertical-2", "상하 2분할", 2, "vertical", [50, 50]⟩,
   ⟨"horizontal-3", "3분할", 3, "horizontal", [33, 34, 33]⟩,
   ⟨"grid-4", "4분할", 4, "grid", [25, 25, 25, 25]⟩,
   ⟨"left-main", "좌측 메인", 3, "horizontal", [60, 20, 20]⟩,
   ⟨"top-main", "상단 메인", 3, "vertical", [60, 20, 20]⟩]

/-- Mirrors the store's `splitLayout` value `{ layoutId, panels, direction }`. -/
structure SplitLayoutValue where
  layoutId : String
  panels : List SplitPanelState
  direction : String
  deriving Repr, DecidableEq

/-- The slice of the zustand store the layout actions read and write:
`splitLayout`, `activePanelId` and `activeTerminalId`. -/
structure LayoutStore where
  splitLayout : SplitLayoutValue
  activePanelId : String
  activeTerminalId : Option String
  deriving Repr, DecidableEq

/-- Shallow embedding of the store action `setSplitLayout(layoutId)`
(`src/unnamed/part_002` lines 981-1007): look the template up in
`SPLIT_LAYOUTS` (unknown ids are a no-op), collect the currently assigned
terminal ids in panel order, and build one fresh panel per default ratio,
assigning `existingTerminalIds[index] ?? (index === 0 &&
existingTerminalIds.length === 0 ? activeTerminalId : null)`; the active
panel pointer is reset to `panel-0`. -/
def setSplitLayout (st : LayoutStore) (layoutId : String) : LayoutStore :=
  match SPLIT_LAYOUTS.find? (fun l => l.id == layoutId) with
  | none => st
  | some layout =>
      let currentPanels := st.splitLayout.panels
      let existingTerminalIds := (currentPanels.map (fun p => p.terminalId)).reduceOption
      let panels : List SplitPanelState :=
        layout.defaultRatios.mapIdx (fun index ratio =>
          { id := "panel-" ++ toString index,
            terminalId :=
              match existingTerminalIds[index]? with
              | some t => some t
              | none =>
                  if index == 0 && existingTerminalIds.length == 0 then
                    st.activeTerminalId
                  else none,
            ratio := ratio })
      { st with
        splitLayout := ⟨layoutId, panels, layout.direction⟩,
        activePanelId := "panel-0" }

/-- Shallow embedding of the store action `updatePanelRatios(ratios)`
(`src/unnamed/part_002` lines 1018-1026): each panel at position `index`
gets `ratios[index] ?? p.ratio`; nothing else changes and no
renormalization is performed. -/
def updatePanelRatios (st : LayoutStore) (ratios : List ℚ) : LayoutStore :=
  { st with
    splitLayout :=
      { st.splitLayout with
        panels := st.splitLayout.panels.mapIdx (fun index p =>
          { p with ratio := (ratios[index]?).getD p.ratio }) } }

/-- Shallow embedding of the store action
`swapTerminals(droppedTerminalId, targetPanelId)` (`src/unnamed/part_002`
lines 1038-1066): the first panel currently holding the dropped terminal
(if any) receives the target panel's previous terminal, and the target
panel receives the dropped terminal; with no target panel the state is
returned unchanged. -/
def swapTerminals (st : LayoutStore) (droppedTerminalId : String)
    (targetPanelId : String) : LayoutStore :=
  let panels := st.splitLayout.panels
  let sourcePanel := panels.find? (fun p => p.terminalId == some droppedTerminalId)
  let targetPanel := panels.find? (fun p => p.id == targetPanelId)
  match targetPanel with
  | none => st
  | some tp =>
      let targetTerminalId := tp.terminalId
      { st with
        splitLayout :=
          { st.splitLayout with
            panels := panels.map (fun p =>
              if p.id == targetPanelId then { p with terminalId := some droppedTerminalId }
              else
                match sourcePanel with
                | some sp =>
                    if p.id == sp.id then { p with terminalId := targetTerminalId } else p
                | none => p) } }

/-- Sum of the panel ratios of a layout store, the quantity the spec's
ratio invariant speaks about. -/
def ratioSum (st : LayoutStore) : ℚ :=
  (st.splitLayout.panels.map (fun p => p.ratio)).sum

/-! ## Edition limits (`src/shared/license.ts`) -/

/-- A numeric edition limit: a finite count or `Infinity`. -/
inductive Limit where
  | fin (n : Nat)
  | inf
  deriving Repr, DecidableEq

/-- Mirrors `type Edition = 'community' | 'pro' | 'enterprise'`. -/
inductive Edition where
  | community
  | pro
  | enterprise
  deriving Repr, DecidableEq

/-- The numeric and boolean fields of one `EDITION_LIMITS` record. -/
structure EditionLimits where
  maxSplitPanels : Limit
  maxQuickCommands : Limit
  maxRemoteConnections : Limit
  searchEnabled : Bool
  teamCollaboration : Bool
  gitIntegration : Bool
  customThemes : Bool
  ssoEnabled : Bool
  auditLog : Bool
  deriving Repr, DecidableEq

/-- Mirrors the `EDITION_LIMITS` constant of `src/shared/license.ts`
(lines 18-52). -/
def EDITION_LIMITS : Edition → EditionLimits
  | .community => ⟨.fin 4, .fin 5, .fin 1, true, false, false, false, false, false⟩
  | .pro => ⟨.inf, .inf, .fin 10, true, true, true, true, false, false⟩
  | .enterprise => ⟨.inf, .inf, .inf, true, true, true, true, true, true⟩

/-! ## Access token module (`webAuth`, bundled in `src/main/web-client/client.js`) -/

/-- Lowercase hexadecimal digit for a value below 16. -/
def hexDigit (n : Nat) : Char :=
  if n < 10 then Char.ofNat (48 + n) else Char.ofNat (87 + n)

/-- Hex encoding of a byte list, two lowercase digits per byte: mirrors
`Buffer.toString('hex')` on the output of `crypto.randomBytes`. -/
def bytesToHex (bs : List Nat) : String :=
  ⟨bs.flatMap (fun b => [hexDigit (b / 16 % 16), hexDigit (b % 16)])⟩

/-- The module-level state of `webAuth`: `let accessToken: string | null`. -/
structure WebAuthState where
  accessToken : Option String
  deriving Repr, DecidableEq

/-- Shallow embedding of `generateToken()`: store and return the hex
encoding of 32 fresh random bytes, supplied here as `fresh`. -/
def generateToken (fresh : List Nat) (_st : WebAuthState) : String × WebAuthState :=
  let t := bytesToHex fresh
  (t, ⟨some t⟩)

/-- Shallow embedding of `validateToken(token)`: false when no token was
generated or the argument is falsy; false on a length mismatch; otherwise
`crypto.timingSafeEqual` on the equal-length byte buffers, i.e. equality. -/
def validateToken (st : WebAuthState) (token : String) : Bool :=
  match st.accessToken with
  | none => false
  | some a =>
      if token = "" then false
      else if token.length ≠ a.length then false
      else token == a

/-- Shallow embedding of `regenerateToken()`: exactly `generateToken()`. -/
def regenerateToken (fresh : List Nat) (st : WebAuthState) : String × WebAuthState :=
  generateToken fresh st

/-! ## Remote access gateway (`src/main/webTerminal.ts`) -/

/-- Mirrors `getMaxConnections()` (`src/main/webTerminal.ts` lines 28-32):
read the current edition's `maxRemoteConnections` and collapse `Infinity`
to `999`. The module-level `currentEdition` is passed explicitly. -/
def getMaxConnections (edition : Edition) : Nat :=
  match (EDITION_LIMITS edition).maxRemoteConnections with
  | .inf => 999
  | .fin n => n

/-- The registered web terminal sessions, `webTerminals: Map<string,
WebTerminalSession>`, abstracted to socket id and pid (the socket and PTY
handle objects carry no further visible state). -/
def WebTerminals := List (String × Nat)

/-- Events a socket can receive from the gateway. -/
inductive WebEvent where
  | errorMsg (message : String)
  | disconnect
  | authSuccess
  | authError (message : String)
  | terminalReady (pid : Nat)
  | terminalData (d : String)
  | terminalExit (exitCode : Int)
  | terminalKilled
  deriving Repr, DecidableEq

/-- The per-connection closure state of the `io.on('connection')` handler:
`let authenticated = false; let terminalSession = null` (a session is
identified by the pid of its PTY). -/
structure ConnState where
  authenticated : Bool
  terminalSession : Option Nat
  deriving Repr, DecidableEq

/-- The capacity error message the gateway emits, built from the current
ceiling exactly as the template literal in the source does. -/
def capacityMessage (maxConnections : Nat) : String :=
  "최대 연결 수(" ++ toString maxConnections ++
    "명)에 도달했습니다. Pro Edition으로 업그레이드하면 더 많은 동시 연결이 가능합니다."

/-- Outcome of a new socket connection: rejected sockets get their events
and never have any message listeners registered; admitted sockets get the
initial closure state. -/
inductive ConnOutcome where
  | rejected (events : List WebEvent)
  | admitted (conn : ConnState)
  deriving Repr, DecidableEq

/-- Shallow embedding of the connection gate at the top of
`io.on('connection')` (`src/main/webTerminal.ts` lines 53-68): if the
registered session count has reached the edition ceiling, emit `error`
and disconnect before any `auth`/`create_terminal` listener is registered;
otherwise admit the socket with fresh closure state. -/
def onConnection (edition : Edition) (webTerminals : WebTerminals) : ConnOutcome :=
  let maxConnections := getMaxConnections edition
  if webTerminals.length ≥ maxConnections then
    .rejected [.errorMsg (capacityMessage maxConnections), .disconnect]
  else
    .admitted ⟨false, none⟩

/-- Shallow embedding of the `auth` listener (`src/main/webTerminal.ts`
lines 71-98), given the `webAuth` module state holding the currently valid
access token. The incoming `data.token` is a string; the empty string
models the falsy no-token case of `if (!data.token)`. -/
def onAuth (authState : WebAuthState) (conn : ConnState) (token : String) :
    ConnState × List WebEvent :=
  if conn.authenticated then (conn, [])
  else if token = "" then (conn, [.authError "No token provided", .disconnect])
  else if validateToken authState token then
    ({ conn with authenticated := true }, [.authSuccess])
  else (conn, [.authError "Invalid access token", .disconnect])

/-- Result of one `create_terminal` request: updated closure state, updated
registry, emitted events, and the number of `pty.spawn` calls made. -/
structure CreateTermOutcome where
  conn : ConnState
  webTerminals : WebTerminals
  events : List WebEvent
  spawnCalls : Nat

/-- Shallow embedding of the `create_terminal` listener
(`src/main/webTerminal.ts` lines 101-170): reject unauthenticated sockets
and sockets that already own a terminal with an `error` event (and no
spawn); otherwise spawn one PTY, register the session under the socket id
and emit `terminal_ready`. -/
def onCreateTerminal (conn : ConnState) (webTerminals : WebTerminals)
    (socketId : String) (sr : SpawnResult) : CreateTermOutcome :=
  if !conn.authenticated then
    ⟨conn, webTerminals, [.errorMsg "Not authenticated"], 0⟩
  else if conn.terminalSession.isSome then
    ⟨conn, webTerminals, [.errorMsg "Terminal already exists for this session"], 0⟩
  else
    match sr with
    | .ok _ pid =>
        ⟨{ conn with terminalSession := some pid }, (socketId, pid) :: webTerminals,
         [.terminalReady pid], 1⟩
    | .err e =>
        ⟨conn, webTerminals, [.errorMsg ("Failed to create terminal: " ++ e)], 1⟩

/-- A socket connects and then sends one `auth` message: the events it
receives. A rejected socket's `auth` message is dropped because the
rejected branch returned before any listener was registered. -/
def connectThenAuth (edition : Edition) (webTerminals : WebTerminals)
    (authState : WebAuthState) (token : String) : List WebEvent :=
  match onConnection edition webTerminals with
  | .rejected events => events
  | .admitted conn => (onAuth authState conn token).2

/-! ## Demo states used by witnesses -/

/-- A registry with two live terminals, used to instantiate theorems. -/
def demoMainState : MainState :=
  ⟨fun k => if k = "a" then some ⟨1, 5⟩ else if k = "b" then some ⟨2, 7⟩ else none,
   fun _ => false⟩

/-! ## Claims about the exit-event PID guard -/

/-- Claim C2: a PTY exit event for logical id `id` carrying pid `pid` is
processed only when `pid` equals the pid currently stored for `id`: on a
mismatch (or a missing entry) the registry is returned unchanged and no
exit notification is emitted; on a match the entry is deleted and a
`terminal:exit` event carrying the exit code is emitted, with every other
id's entry untouched. -/
theorem claim2_exit_pid_guard (st : MainState) (id : String) (pid : Nat)
    (exitCode : Int) :
    ((∀ entry, st.terminals id = some entry → entry.pid ≠ pid) →
       handleExit st id pid exitCode = (st, [])) ∧
    (∀ entry, st.terminals id = some entry → entry.pid = pid →
       (handleExit st id pid exitCode).2 = [MainEvent.exit id exitCode] ∧
       (handleExit st id pid exitCode).1.terminals id = none ∧
       ∀ k, k ≠ id → (handleExit st id pid exitCode).1.terminals k = st.terminals k) := by
  constructor
  · intro hmismatch
    unfold handleExit
    cases hE : st.terminals id with
    | none => rfl
    | some entry => simp [hmismatch entry hE]
  · intro entry hE hpid
    unfold handleExit
    rw [hE]
    dsimp only
    rw [if_pos hpid]
    refine ⟨rfl, by simp, ?_⟩
    intro k hk
    simp [hk]

/-- Witness for C2 at a concrete registry: a stale exit (pid 99 against the
stored pid 5) is discarded whole, and a matching exit (pid 5) deletes the
entry for `a`, emits the exit event and leaves `b` intact. -/
theorem claim2_exit_pid_guard_witness :
    handleExit demoMainState "a" 99 0 = (demoMainState, []) ∧
    (handleExit demoMainState "a" 5 0).2 = [MainEvent.exit "a" 0] ∧
    (handleExit demoMainState "a" 5 0).1.terminals "a" = none ∧
    (handleExit demoMainState "a" 5 0).1.terminals "b" = some ⟨2, 7⟩ := by
  have h1 := (claim2_exit_pid_guard demoMainState "a" 99 0).1 (by
    intro entry hE
    simp [demoMainState] at hE
    rw [← hE]
    decide)
  have h2 := (claim2_exit_pid_guard demoMainState "a" 5 0).2 ⟨1, 5⟩
    (by simp [demoMainState]) rfl
  refine ⟨h1, h2.1, h2.2.1, ?_⟩
  have hb := h2.2.2 "b" (by decide)
  rw [hb]
  simp [demoMainState]

/-! ## Claims about the remote gateway -/

/-- Claim C7: a `create_terminal` request on an authenticated socket that
already owns a terminal is rejected by emitting an error event: no PTY is
spawned, the closure state and the session registry are unchanged, and no
disconnect is issued. -/
theorem claim7_duplicate_remote_terminal (conn : ConnState) (wts : WebTerminals)
    (socketId : String) (sr : SpawnResult) (p : Nat)
    (hauth : conn.authenticated = true) (hsess : conn.terminalSession = some p) :
    onCreateTerminal conn wts socketId sr =
      ⟨conn, wts, [WebEvent.errorMsg "Terminal already exists for this session"], 0⟩ ∧
    WebEvent.disconnect ∉ (onCreateTerminal conn wts socketId sr).events := by
  have hmain : onCreateTerminal conn wts socketId sr =
      ⟨conn, wts, [WebEvent.errorMsg "Terminal already exists for this session"], 0⟩ := by
    unfold onCreateTerminal
    simp [hauth, hsess]
  refine ⟨hmain, ?_⟩
  rw [hmain]
  show WebEvent.disconnect ∉ [WebEvent.errorMsg "Terminal already exists for this session"]
  decide

/-- Witness for C7: an authenticated connection already holding the PTY with
pid 41 sends a second `create_terminal`; it gets the error event, no spawn
happens and the registry entry is untouched. -/
theorem claim7_duplicate_remote_terminal_witness :
    onCreateTerminal ⟨true, some 41⟩ [("s1", 41)] "s1" (.ok 9 42) =
      ⟨⟨true, some 41⟩, [("s1", 41)], [WebEvent.errorMsg "Terminal already exists for this session"], 0⟩ :=
  (claim7_duplicate_remote_terminal ⟨true, some 41⟩ [("s1", 41)] "s1" (.ok 9 42) 41
    rfl rfl).1

/-- Claim C10: `getMaxConnections` collapses the `Infinity` ceiling of the
enterprise edition to `999`, so a connection arriving with 999 registered
sessions is rejected even on the unlimited edition; the finite community
and pro ceilings are returned as configured (1 and 10). -/
theorem claim10_max_connections :
    getMaxConnections .enterprise = 999 ∧
    getMaxConnections .community = 1 ∧
    getMaxConnections .pro = 10 ∧
    (∀ wts : WebTerminals, wts.length = 999 →
      onConnection .enterprise wts =
        .rejected [.errorMsg (capacityMessage 999), .disconnect]) := by
  refine ⟨rfl, rfl, rfl, ?_⟩
  intro wts hlen
  unfold onConnection
  rw [hlen]
  decide

/-- Witness for C10: with exactly 999 registered enterprise sessions the
next connection is rejected with the capacity error and a disconnect. -/
theorem claim10_max_connections_witness :
    onConnection .enterprise (List.replicate 999 ("s", 0)) =
      .rejected [.errorMsg (capacityMessage 999), .disconnect] :=
  claim10_max_connections.2.2.2 (List.replicate 999 ("s", 0)) (by rw [List.length_replicate])

/-- Claim C5: a socket arriving while the registered session count has
reached the edition ceiling receives exactly the capacity error followed by
a disconnect, and — because the rejected branch returns before any listener
is registered — a subsequently sent `auth` message (even with a valid
token) can never produce `auth_success`. -/
theorem claim5_capacity_before_auth (edition : Edition) (wts : WebTerminals)
    (authState : WebAuthState) (token : String)
    (hfull : wts.length ≥ getMaxConnections edition) :
    connectThenAuth edition wts authState token =
      [.errorMsg (capacityMessage (getMaxConnections edition)), .disconnect] ∧
    WebEvent.authSuccess ∉ connectThenAuth edition wts authState token := by
  have hconn : onConnection edition wts =
      .rejected [.errorMsg (capacityMessage (getMaxConnections edition)), .disconnect] := by
    unfold onConnection
    dsimp only
    rw [if_pos hfull]
  have hmain : connectThenAuth edition wts authState token =
      [.errorMsg (capacityMessage (getMaxConnections edition)), .disconnect] := by
    unfold connectThenAuth
    rw [hconn]
  refine ⟨hmain, ?_⟩
  rw [hmain]
  simp

/-- Witness for C5: community ceiling 1, one registered session; a second
socket presenting the exactly valid token still gets the capacity error
plus disconnect, and its (dropped) auth message yields no `auth_success`. -/
theorem claim5_capacity_before_auth_witness :
    validateToken ⟨some "deadbeef"⟩ "deadbeef" = true ∧
    connectThenAuth .community [("s1", 100)] ⟨some "deadbeef"⟩ "deadbeef" =
      [.errorMsg (capacityMessage 1), .disconnect] ∧
    WebEvent.authSuccess ∉
      connectThenAuth .community [("s1", 100)] ⟨some "deadbeef"⟩ "deadbeef" := by
  have h := claim5_capacity_before_auth .community [("s1", 100)] ⟨some "deadbeef"⟩
    "deadbeef" (by decide)
  exact ⟨by decide, h.1, h.2⟩

/-! ## Claims about token rotation -/

/-- Each byte contributes exactly two characters to the hex encoding. -/
lemma length_bytesToHex (bs : List Nat) : (bytesToHex bs).length = 2 * bs.length := by
  show (bs.flatMap (fun b => [hexDigit (b / 16 % 16), hexDigit (b % 16)])).length
      = 2 * bs.length
  induction bs with
  | nil => rfl
  | cons b t ih =>
      rw [List.flatMap_cons, List.length_append, ih]
      show 2 + 2 * t.length = 2 * (t.length + 1)
      omega

/-- Against a non-empty stored token, `validateToken` is exactly equality
with the stored token. -/
lemma validateToken_some (a tok : String) (ha : a ≠ "") :
    validateToken ⟨some a⟩ tok = (tok == a) := by
  unfold validateToken
  dsimp only
  by_cases h0 : tok = ""
  · subst h0
    rw [if_pos rfl]
    exact (beq_eq_false_iff_ne.mpr (fun h => ha h.symm)).symm
  · rw [if_neg h0]
    by_cases hl : tok.length ≠ a.length
    · rw [if_pos hl]
      exact (beq_eq_false_iff_ne.mpr (fun he => hl (by rw [he]))).symm
    · rw [if_neg hl]

/-- Claim C6: after `regenerateToken()` every string other than the newly
generated token fails validation, the new token itself validates, the token
length is the constant 64, and in fact a string validates exactly when it
equals the new token (one valid token at any instant). -/
theorem claim6_token_rotation (st : WebAuthState) (fresh : List Nat) (old : String)
    (hlen : fresh.length = 32)
    (hold : old ≠ (regenerateToken fresh st).1) :
    validateToken (regenerateToken fresh st).2 old = false ∧
    validateToken (regenerateToken fresh st).2 (regenerateToken fresh st).1 = true ∧
    ((regenerateToken fresh st).1).length = 64 ∧
    (∀ tok, validateToken (regenerateToken fresh st).2 tok = true ↔
       tok = (regenerateToken fresh st).1) := by
  have hst2 : (regenerateToken fresh st).2 = ⟨some (bytesToHex fresh)⟩ := rfl
  have hst1 : (regenerateToken fresh st).1 = bytesToHex fresh := rfl
  have h64 : (bytesToHex fresh).length = 64 := by
    rw [length_bytesToHex, hlen]
  have hne : bytesToHex fresh ≠ "" := by
    intro h
    rw [h] at h64
    exact absurd h64 (by decide)
  rw [hst1] at hold
  refine ⟨?_, ?_, by rw [hst1, h64], ?_⟩
  · rw [hst2, validateToken_some _ _ hne]
    exact beq_eq_false_iff_ne.mpr hold
  · rw [hst2, hst1, validateToken_some _ _ hne]
    exact beq_self_eq_true _
  · intro tok
    rw [hst2, hst1, validateToken_some _ _ hne]
    exact ⟨fun h => eq_of_beq h, fun h => by rw [h]; exact beq_self_eq_true _⟩

/-- Witness for C6 at 32 zero bytes: the previous value `"x"` fails, the
fresh 64-character token validates, and its length is 64. -/
theorem claim6_token_rotation_witness :
    validateToken (regenerateToken (List.replicate 32 0) ⟨some "x"⟩).2 "x" = false ∧
    validateToken (regenerateToken (List.replicate 32 0) ⟨some "x"⟩).2
      (regenerateToken (List.replicate 32 0) ⟨some "x"⟩).1 = true ∧
    ((regenerateToken (List.replicate 32 0) ⟨some "x"⟩).1).length = 64 := by
  have h := claim6_token_rotation ⟨some "x"⟩ (List.replicate 32 0) "x"
    (by decide) (by decide)
  exact ⟨h.1, h.2.1, h.2.2.1⟩

/-! ## Claims about the split-layout model -/

/-- Unfolded form of `swapTerminals` once the target panel lookup succeeds. -/
lemma swapTerminals_panels_eq (st : LayoutStore) (X P2 : String)
    (tp : SplitPanelState)
    (htp : st.splitLayout.panels.find? (fun p => p.id == P2) = some tp) :
    (swapTerminals st X P2).splitLayout.panels =
      st.splitLayout.panels.map (fun p =>
        if p.id == P2 then { p with terminalId := some X }
        else
          match st.splitLayout.panels.find? (fun p => p.terminalId == some X) with
          | some sp => if p.id == sp.id then { p with terminalId := tp.terminalId } else p
          | none => p) := by
  unfold swapTerminals
  dsimp only
  rw [htp]
  dsimp only
  apply List.map_congr_left
  intro p _
  cases hf : st.splitLayout.panels.find? (fun q => q.terminalId == some X) <;> rfl

/-- Claim C8: when some panel holds the dropped terminal `X` (the source, of
panel id `src.id`) and the target panel `P2` holds `Y`, `swapTerminals X P2`
assigns `X` to the target and `Y` to the source - a true swap - while every
other slot's assignment, every slot id and every ratio are unchanged; when
no panel holds `X`, only the target panel's assignment changes. -/
theorem claim8_swap_true_swap (st : LayoutStore) (X P2 : String) :
    (∀ src tgt : SplitPanelState, ∀ Y : String,
        st.splitLayout.panels.find? (fun p => p.terminalId == some X) = some src →
        st.splitLayout.panels.find? (fun p => p.id == P2) = some tgt →
        tgt.terminalId = some Y → src.id ≠ P2 →
        ∀ (i : Nat) (p : SplitPanelState), st.splitLayout.panels[i]? = some p →
          (swapTerminals st X P2).splitLayout.panels[i]? =
            some (if p.id = P2 then { p with terminalId := some X }
                  else if p.id = src.id then { p with terminalId := some Y }
                  else p)) ∧
    (∀ tgt : SplitPanelState,
        st.splitLayout.panels.find? (fun p => p.terminalId == some X) = none →
        st.splitLayout.panels.find? (fun p => p.id == P2) = some tgt →
        ∀ (i : Nat) (p : SplitPanelState), st.splitLayout.panels[i]? = some p →
          (swapTerminals st X P2).splitLayout.panels[i]? =
            some (if p.id = P2 then { p with terminalId := some X } else p)) ∧
    ((swapTerminals st X P2).splitLayout.panels.map (fun p => p.ratio) =
       st.splitLayout.panels.map (fun p => p.ratio)) ∧
    ((swapTerminals st X P2).splitLayout.panels.map (fun p => p.id) =
       st.splitLayout.panels.map (fun p => p.id)) := by
  refine ⟨?_, ?_, ?_, ?_⟩
  · intro src tgt Y hsrc htgt hY hne i p hp
    rw [swapTerminals_panels_eq st X P2 tgt htgt, List.getElem?_map, hp]
    simp only [Option.map_some']
    congr 1
    rw [hsrc]
    by_cases h2 : p.id = P2
    · simp [h2]
    · by_cases h1 : p.id = src.id
      · simp [h1, h2, hY, h1 ▸ h2]
      · simp [h1, h2]
  · intro tgt hsrc htgt i p hp
    rw [swapTerminals_panels_eq st X P2 tgt htgt, List.getElem?_map, hp]
    simp only [Option.map_some']
    congr 1
    rw [hsrc]
    by_cases h2 : p.id = P2 <;> simp [h2]
  · cases htp : st.splitLayout.panels.find? (fun p => p.id == P2) with
    | none =>
        unfold swapTerminals
        simp only [htp]
    | some tp =>
        rw [swapTerminals_panels_eq st X P2 tp htp, List.map_map]
        apply List.map_congr_left
        intro a _
        dsimp only [Function.comp]
        by_cases h2 : a.id = P2
        · simp [h2]
        · cases st.splitLayout.panels.find? (fun p => p.terminalId == some X) with
          | none => simp [h2]
          | some sp =>
              by_cases h1 : a.id = sp.id <;> simp [h1, h2] <;> try (split <;> rfl)
  · cases htp : st.splitLayout.panels.find? (fun p => p.id == P2) with
    | none =>
        unfold swapTerminals
        simp only [htp]
    | some tp =>
        rw [swapTerminals_panels_eq st X P2 tp htp, List.map_map]
        apply List.map_congr_left
        intro a _
        dsimp only [Function.comp]
        by_cases h2 : a.id = P2
        · simp [h2]
        · cases st.splitLayout.panels.find? (fun p => p.terminalId == some X) with
          | none => simp [h2]
          | some sp =>
              by_cases h1 : a.id = sp.id <;> simp [h1, h2] <;> try (split <;> rfl)

/-- The two-panel layout store used to instantiate the swap claim. -/
def demoSwapStore : LayoutStore :=
  ⟨⟨"horizontal-2",
    [⟨"panel-0", some "X", 50⟩, ⟨"panel-1", some "Y", 50⟩], "horizontal"⟩,
   "panel-0", none⟩

/-- Witness for C8: panels `panel-0 → X`, `panel-1 → Y`; dropping `X` on
`panel-1` yields `panel-1 → X` and `panel-0 → Y` with ratios intact. -/
theorem claim8_swap_true_swap_witness :
    (swapTerminals demoSwapStore "X" "panel-1").splitLayout.panels[0]? =
      some ⟨"panel-0", some "Y", 50⟩ ∧
    (swapTerminals demoSwapStore "X" "panel-1").splitLayout.panels[1]? =
      some ⟨"panel-1", some "X", 50⟩ := by
  have h := (claim8_swap_true_swap demoSwapStore "X" "panel-1").1
    ⟨"panel-0", some "X", 50⟩ ⟨"panel-1", some "Y", 50⟩ "Y"
    (by decide) (by decide) rfl (by decide)
  have h0 := h 0 ⟨"panel-0", some "X", 50⟩ (by decide)
  have h1 := h 1 ⟨"panel-1", some "Y", 50⟩ (by decide)
  constructor
  · rw [h0]
    try decide
  · rw [h1]
    try decide

/-! ## Claims about create idempotency and the runAgent fallback -/

/-- Claim C1 counterexample: starting from an empty registry, two
consecutive `terminal:create` calls for id `a` both call `pty.spawn` (one
spawn each, total 2, not 1), the second also returns success, and the
stored entry changes from handle/pid (1, 1) to (2, 2) instead of staying
unchanged. -/
theorem claim1_counterexample :
    (terminalCreate true emptyMainState "a" (.ok 1 1)).spawnCalls = 1 ∧
    (terminalCreate true emptyMainState "a" (.ok 1 1)).state.terminals "a" =
      some ⟨1, 1⟩ ∧
    (terminalCreate true (terminalCreate true emptyMainState "a" (.ok 1 1)).state
        "a" (.ok 2 2)).result = .ok ∧
    (terminalCreate true (terminalCreate true emptyMainState "a" (.ok 1 1)).state
        "a" (.ok 2 2)).spawnCalls = 1 ∧
    (terminalCreate true (terminalCreate true emptyMainState "a" (.ok 1 1)).state
        "a" (.ok 2 2)).state.terminals "a" = some ⟨2, 2⟩ :=
  ⟨rfl, rfl, rfl, rfl, rfl⟩

/-- Claim C1 amended: `terminal:create` is not idempotent — with a live
entry for `id` it still calls `pty.spawn` once, returns success and
replaces the stored entry with the new handle and pid; the
return-success-without-spawning behaviour belongs to `terminal:runClaude`,
which on a live `id` returns success with zero spawn calls and the state
unchanged. -/
theorem claim1_amended (st : MainState) (id : String) (e : TerminalEntry)
    (h pid : Nat) (sr : SpawnResult) (hlive : st.terminals id = some e) :
    ((terminalCreate true st id (.ok h pid)).result = .ok ∧
     (terminalCreate true st id (.ok h pid)).spawnCalls = 1 ∧
     (terminalCreate true st id (.ok h pid)).state.terminals id = some ⟨h, pid⟩) ∧
    terminalRunClaude true st id sr = ⟨.ok, st, 0⟩ := by
  constructor
  · refine ⟨rfl, rfl, ?_⟩
    show (fun k => if k = id then some (⟨h, pid⟩ : TerminalEntry) else st.terminals k) id =
      some ⟨h, pid⟩
    simp
  · unfold terminalRunClaude
    simp [hlive]

/-- Witness for the amended C1 on a registry where `a` is live with pid 5:
a new create replaces the entry with (3, 9) while `runClaude` is a no-op. -/
theorem claim1_amended_witness :
    (terminalCreate true demoMainState "a" (.ok 3 9)).state.terminals "a" =
      some ⟨3, 9⟩ ∧
    terminalRunClaude true demoMainState "a" (.ok 3 9) = ⟨.ok, demoMainState, 0⟩ := by
  have h := claim1_amended demoMainState "a" ⟨1, 5⟩ 3 9 (.ok 3 9) rfl
  exact ⟨h.1.2.2, h.2⟩

/-- Claim C3 counterexample: when the spawn inside `terminal:runClaude`
fails, the handler itself returns the failure without spawning any fallback
shell and leaves no registry entry for the id; and even in the combined
renderer flow the fallback `create` can fail too, after which no live
plain-shell entry for `x` exists — contrary to the claimed unconditional
live fallback entry. -/
theorem claim3_counterexample :
    (terminalRunClaude true emptyMainState "x" (.err "spawn ENOENT")).result =
      .fail "spawn ENOENT" ∧
    (terminalRunClaude true emptyMainState "x" (.err "spawn ENOENT")).spawnCalls = 1 ∧
    (terminalRunClaude true emptyMainState "x"
        (.err "spawn ENOENT")).state.terminals "x" = none ∧
    (initTerminal true emptyMainState "x" (.err "spawn ENOENT")
        (.err "spawn ENOENT")).state.terminals "x" = none :=
  ⟨rfl, rfl, rfl, rfl⟩

/-- Claim C3 amended: the agent CLI is never launched inside the PTY, so the
failure that exists is the PTY spawn failing inside `runAgent`, and the
fallback lives in the renderer: when `runAgent` reports failure and the
renderer's fallback `create` spawn succeeds, the flow leaves a live
plain-shell entry for `id`, the diagnostic banner written into the
terminal's output contains the failure reason, and exactly two spawns were
attempted. -/
theorem claim3_amended (st : MainState) (id : String) (e : String) (h pid : Nat)
    (hnolive : st.terminals id = none) (hnopending : st.pendingTerminals id = false) :
    (initTerminal true st id (.err e) (.ok h pid)).state.terminals id = some ⟨h, pid⟩ ∧
    ("Failed to start Claude: " ++ e) ∈
      (initTerminal true st id (.err e) (.ok h pid)).banner ∧
    (initTerminal true st id (.err e) (.ok h pid)).spawnCalls = 2 := by
  have ho1 : terminalRunClaude true st id (.err e) = ⟨.fail e, st, 1⟩ := by
    unfold terminalRunClaude
    simp [hnolive, hnopending]
  unfold initTerminal
  rw [ho1]
  dsimp only
  refine ⟨?_, ?_, rfl⟩
  · show (fun k => if k = id then some (⟨h, pid⟩ : TerminalEntry) else st.terminals k) id =
      some ⟨h, pid⟩
    simp
  · exact List.mem_cons_self _ _

/-- Witness for the amended C3: on an empty registry, `runAgent("x")` whose
spawn fails with reason `boom` followed by a successful fallback create
leaves the live entry (7, 8) and the banner line carrying `boom`. -/
theorem claim3_amended_witness :
    (initTerminal true emptyMainState "x" (.err "boom") (.ok 7 8)).state.terminals "x" =
      some ⟨7, 8⟩ ∧
    ("Failed to start Claude: " ++ "boom") ∈
      (initTerminal true emptyMainState "x" (.err "boom") (.ok 7 8)).banner ∧
    (initTerminal true emptyMainState "x" (.err "boom") (.ok 7 8)).spawnCalls = 2 :=
  claim3_amended emptyMainState "x" "boom" 7 8 rfl rfl

/-- Layout store with two 50/50 panels, used in the ratio claims. -/
def demoRatioStore : LayoutStore :=
  ⟨⟨"horizontal-2", [⟨"panel-0", none, 50⟩, ⟨"panel-1", none, 50⟩], "horizontal"⟩,
   "panel-0", none⟩

/-- Claim C4 counterexample: on a layout whose ratios sum to 100, feeding
`updatePanelRatios` a matching-length list `[60, 60]` leaves the sum at
120 — no renormalization to 100 happens. -/
theorem claim4_counterexample :
    ([(60 : ℚ), 60]).length = demoRatioStore.splitLayout.panels.length ∧
    ratioSum demoRatioStore = 100 ∧
    ratioSum (updatePanelRatios demoRatioStore [60, 60]) = 120 ∧
    ratioSum (updatePanelRatios demoRatioStore [60, 60]) ≠ 100 := by
  have h1 : ratioSum demoRatioStore = 100 := by
    norm_num [ratioSum, demoRatioStore]
  have h2 : ratioSum (updatePanelRatios demoRatioStore [60, 60]) = 120 := by
    norm_num [ratioSum, updatePanelRatios, demoRatioStore,
      List.mapIdx_cons, List.mapIdx_nil]
  exact ⟨rfl, h1, h2, by rw [h2]; norm_num⟩

/-- Applying a full-length ratio list positionally replaces exactly the
ratio column. -/
lemma map_ratio_mapIdx_applied (ps : List SplitPanelState) :
    ∀ rs : List ℚ, rs.length = ps.length →
      ((ps.mapIdx (fun index p => { p with ratio := (rs[index]?).getD p.ratio })).map
        (fun p => p.ratio)) = rs := by
  induction ps with
  | nil =>
      intro rs h
      have : rs = [] := List.length_eq_zero.mp (by simpa using h)
      subst this
      rfl
  | cons p ps ih =>
      intro rs h
      cases rs with
      | nil => simp at h
      | cons r rs' =>
          rw [List.mapIdx_cons, List.map_cons]
          simp only [List.getElem?_cons_zero, Option.getD_some, List.getElem?_cons_succ]
          rw [ih rs' (by simpa using h)]

/-- Claim C4 amended: `updatePanelRatios` applies the ratios positionally
with no renormalization, so the panel ratios afterwards are exactly the
input list; the invariant that they sum to 100 therefore holds exactly when
the matching-length input itself sums to 100. -/
theorem claim4_amended (st : LayoutStore) (ratios : List ℚ)
    (hlen : ratios.length = st.splitLayout.panels.length)
    (hsum : ratios.sum = 100) :
    ((updatePanelRatios st ratios).splitLayout.panels.map (fun p => p.ratio)) =
      ratios ∧
    ratioSum (updatePanelRatios st ratios) = 100 := by
  have happ : ((updatePanelRatios st ratios).splitLayout.panels.map (fun p => p.ratio)) =
      ratios := by
    unfold updatePanelRatios
    dsimp only
    exact map_ratio_mapIdx_applied _ ratios hlen
  refine ⟨happ, ?_⟩
  unfold ratioSum
  rw [happ, hsum]

/-- Witness for the amended C4: applying `[70, 30]` to the 50/50 layout
yields ratios `[70, 30]` whose sum is again 100. -/
theorem claim4_amended_witness :
    ((updatePanelRatios demoRatioStore [70, 30]).splitLayout.panels.map
        (fun p => p.ratio)) = [70, 30] ∧
    ratioSum (updatePanelRatios demoRatioStore [70, 30]) = 100 :=
  claim4_amended demoRatioStore [70, 30] rfl (by norm_num)

/-- Layout store with a single unassigned panel but a live active terminal
`t9`, exhibiting the `activeTerminalId` fallback of `setSplitLayout`. -/
def demoActiveStore : LayoutStore :=
  ⟨⟨"single", [⟨"panel-0", none, 100⟩], "horizontal"⟩, "panel-0", some "t9"⟩

/-- Claim C9 counterexample: with no panel previously assigned (so zero
previously-assigned terminals) but an active terminal `t9`, the claim says
both new panels of `horizontal-2` start unassigned; the code instead
assigns `t9` to the first new panel. -/
theorem claim9_counterexample :
    ((setSplitLayout demoActiveStore "horizontal-2").splitLayout.panels.map
        (fun p => p.terminalId)) = [some "t9", none] ∧
    ((setSplitLayout demoActiveStore "horizontal-2").splitLayout.panels.map
        (fun p => p.terminalId)) ≠ [none, none] := by
  constructor
  · rfl
  · intro h
    rw [show ((setSplitLayout demoActiveStore "horizontal-2").splitLayout.panels.map
        (fun p => p.terminalId)) = [some "t9", none] from rfl] at h
    simp at h

/-- Claim C9 amended: `setSplitLayout` replaces the panel list with one slot
per template ratio carrying the template's default ratios, assigns the Nth
previously-assigned terminal (in panel order) to the Nth new panel, drops
surplus assignments and resets the active-panel pointer to `panel-0`;
*extra panels start unassigned except that, when no panel was previously
assigned, the first new panel receives the currently active terminal* — so
under the proviso that some panel was assigned or no terminal is active,
each new slot `i` is exactly panel `panel-i` with the Nth preserved
assignment and the template's ratio. -/
theorem claim9_amended (st : LayoutStore) (layoutId : String)
    (layout : SplitLayoutType)
    (hfind : SPLIT_LAYOUTS.find? (fun l => l.id == layoutId) = some layout)
    (hnofb : (st.splitLayout.panels.map (fun p => p.terminalId)).reduceOption ≠ [] ∨
       st.activeTerminalId = none) :
    (setSplitLayout st layoutId).activePanelId = "panel-0" ∧
    (setSplitLayout st layoutId).splitLayout.layoutId = layoutId ∧
    (setSplitLayout st layoutId).splitLayout.direction = layout.direction ∧
    ((setSplitLayout st layoutId).splitLayout.panels.map (fun p => p.ratio) =
       layout.defaultRatios) ∧
    (∀ i : Nat, (setSplitLayout st layoutId).splitLayout.panels[i]? =
       (layout.defaultRatios[i]?).map (fun r =>
         ⟨"panel-" ++ toString i,
          ((st.splitLayout.panels.map (fun p => p.terminalId)).reduceOption)[i]?,
          r⟩)) := by
  have hres : setSplitLayout st layoutId =
      { st with
        splitLayout :=
          ⟨layoutId,
           layout.defaultRatios.mapIdx (fun index ratio =>
             { id := "panel-" ++ toString index,
               terminalId :=
                 match ((st.splitLayout.panels.map (fun p => p.terminalId)).reduceOption)[index]? with
                 | some t => some t
                 | none =>
                     if index == 0 &&
                         ((st.splitLayout.panels.map (fun p => p.terminalId)).reduceOption).length == 0 then
                       st.activeTerminalId
                     else none,
               ratio := ratio }),
           layout.direction⟩,
        activePanelId := "panel-0" } := by
    unfold setSplitLayout
    rw [hfind]
  have htid : ∀ i : Nat,
      (match ((st.splitLayout.panels.map (fun p => p.terminalId)).reduceOption)[i]? with
       | some t => some t
       | none =>
           if i == 0 &&
               ((st.splitLayout.panels.map (fun p => p.terminalId)).reduceOption).length == 0 then
             st.activeTerminalId
           else none) =
      ((st.splitLayout.panels.map (fun p => p.terminalId)).reduceOption)[i]? := by
    intro i
    cases hex : ((st.splitLayout.panels.map (fun p => p.terminalId)).reduceOption)[i]? with
    | some t => rfl
    | none =>
        cases hnofb with
        | inl hne =>
            have : ¬ ((st.splitLayout.panels.map (fun p => p.terminalId)).reduceOption).length = 0 := by
              simpa [List.length_eq_zero] using hne
            simp [this]
        | inr hactive =>
            rw [hactive]
            dsimp only
            split <;> rfl
  rw [hres]
  refine ⟨rfl, rfl, rfl, ?_, ?_⟩
  · apply List.ext_getElem?
    intro i
    rw [List.getElem?_map, List.getElem?_mapIdx]
    cases layout.defaultRatios[i]? with
    | none => rfl
    | some r => rfl
  · intro i
    rw [List.getElem?_mapIdx]
    cases hr : layout.defaultRatios[i]? with
    | none => rfl
    | some r =>
        dsimp only [Option.map_some']
        congr 1
        rw [htid i]

/-- Witness for the amended C9 at the spec's own scenario: one panel
assigned `t1`, then `selectLayout("horizontal-2")` yields `panel-0 → t1`,
`panel-1 → null`, ratios `[50, 50]`, active panel reset. -/
theorem claim9_amended_witness :
    (setSplitLayout ⟨⟨"single", [⟨"panel-0", some "t1", 100⟩], "horizontal"⟩,
        "panel-0", some "t1"⟩ "horizontal-2").activePanelId = "panel-0" ∧
    (setSplitLayout ⟨⟨"single", [⟨"panel-0", some "t1", 100⟩], "horizontal"⟩,
        "panel-0", some "t1"⟩ "horizontal-2").splitLayout.panels[0]? =
      some ⟨"panel-0", some "t1", 50⟩ ∧
    (setSplitLayout ⟨⟨"single", [⟨"panel-0", some "t1", 100⟩], "horizontal"⟩,
        "panel-0", some "t1"⟩ "horizontal-2").splitLayout.panels[1]? =
      some ⟨"panel-1", none, 50⟩ ∧
    ((setSplitLayout ⟨⟨"single", [⟨"panel-0", some "t1", 100⟩], "horizontal"⟩,
        "panel-0", some "t1"⟩ "horizontal-2").splitLayout.panels.map
        (fun p => p.ratio)) = [50, 50] := by
  have h := claim9_amended
    ⟨⟨"single", [⟨"panel-0", some "t1", 100⟩], "horizontal"⟩, "panel-0", some "t1"⟩
    "horizontal-2" ⟨"horizontal-2", "좌우 2분할", 2, "horizontal", [50, 50]⟩
    rfl (Or.inl (by decide))
  refine ⟨h.1, ?_, ?_, h.2.2.2.1⟩
  · rw [h.2.2.2.2 0]
    rfl
  · rw [h.2.2.2.2 1]
    rfl

end NineK
